import Mathlib

/-!
Shallow embedding of the core of the volatility-modeling repository:
`src/returns.py`, `src/vol_models/ewma.py`, `src/vol_models/historical.py`
and `src/evaluation.py`.

A pandas `Series` is modelled as a list of (timestamp, value) pairs with
timestamps drawn from `Nat`; a value of `none` models NaN (the "undefined"
marker).  Fallible code is modelled in `Except String`; an unguarded crash
(numpy IndexError) is an `Except.error` with an "IndexError" message,
distinct from the `ValueError` messages of explicit validation raises.

The embedding is generic over a linear ordered field `K`, with the
transcendental operations `log` and `sqrt` passed as explicit function
parameters, so every definition is executable; the theorems instantiate
`K := ℝ`, `log := Real.log`, `sqrt := Real.sqrt`.
-/

namespace VolModel

/-- Model of a pandas Series over value type `K`: ordered (timestamp, value)
pairs; `none` is NaN. -/
abbrev Ser (K : Type) := List (Nat × Option K)

variable {K : Type} [LinearOrderedField K]

/-- Elementwise binary float operation, NaN-propagating (numpy semantics). -/
def omap2 (f : K → K → K) : Option K → Option K → Option K
  | some a, some b => some (f a b)
  | _, _ => none

/-- Model of numpy sqrt: NaN on negative input, the supplied square-root
function otherwise. -/
def npSqrt (sqrt : K → K) (x : K) : Option K :=
  if x < 0 then none else some (sqrt x)

/-- Arithmetic mean of a list (pandas `.mean()` of a clean series). -/
def mean (l : List K) : K := l.sum / l.length

/-- Model of pandas `Series.mean()` with its default skipna=True: NaN entries
are dropped, and the mean of nothing is NaN. -/
def meanSkipna (l : List (Option K)) : Option K :=
  if (l.filterMap id).isEmpty then none else some (mean (l.filterMap id))

/-- Values of the valid (non-NaN) observations: pandas `series.dropna()`. -/
def validVals (s : Ser K) : List K := s.filterMap (fun p => p.2)

/-- Model of pandas `Series.var(ddof)`: NaN when the count is ≤ ddof,
otherwise the sum of squared deviations from the mean over (n − ddof). -/
def seriesVar (l : List K) (ddof : Nat) : Option K :=
  if l.length ≤ ddof then none
  else some ((l.map (fun x => (x - mean l) ^ 2)).sum / ((l.length : K) - (ddof : K)))

/-- Model of `Series.align(other, join="inner")`: for each timestamp of `a`
also present in `b`, the pair of values. -/
def innerJoin (a b : Ser K) : List (Nat × Option K × Option K) :=
  a.filterMap (fun p => (b.lookup p.1).map (fun q => (p.1, p.2, q)))

/-- Model of pandas `.loc[labels]`: label-based lookup raising KeyError on a
label absent from the index. -/
def seriesLoc (s : Ser K) (labels : List Nat) : Except String (Ser K) :=
  labels.mapM (fun t =>
    match s.lookup t with
    | some v => Except.ok (t, v)
    | none => Except.error "KeyError: label not in index")

/-- Python slice-bound normalisation for a sequence of length n:
negative bounds count from the end, and bounds are clamped to [0, n]. -/
def pyBound (n : Nat) (i : ℤ) : Nat :=
  if i < 0 then (i + n).toNat else min i.toNat n

/-- Python positional slice `l[a:b]`, as used by pandas `.iloc[a:b]`. -/
def pySlice {α : Type} (l : List α) (a b : ℤ) : List α :=
  (l.take (pyBound l.length b)).drop (pyBound l.length a)

/-- Payload of a successful computation, with a default for the error case. -/
def getOk {α : Type} (e : Except String α) (d : α) : α :=
  match e with
  | .ok a => a
  | .error _ => d

/-- TRADING_DAYS constant from src/returns.py. -/
def TRADING_DAYS : ℕ := 252

namespace Returns

/-- Model of pandas `prices.shift(1)` on the value column: every value moves
one step later and a NaN enters in front; the length is unchanged. -/
def shift1 (l : List (Option K)) : List (Option K) :=
  (none :: l).take l.length

/-- Embedding of `log_returns` from src/returns.py:
`shifted = prices.shift(1); returns = np.log(prices / shifted)`.
Element-wise, the value at position i is log(P_i / P_{i−1}), NaN at position 0
(and wherever an operand is NaN); the index is that of `prices`. -/
def log_returns (log : K → K) (prices : Ser K) : Ser K :=
  prices.zipWith
    (fun p sh => (p.1, omap2 (fun a b => log (a / b)) p.2 sh))
    (shift1 (prices.map (fun p => p.2)))

end Returns

namespace Ewma

/-- Single EWMA update: var[i] = λ·var[i−1] + (1−λ)·r²[i−1]. -/
def step (lam : K) (prev r2 : K) : K := lam * prev + (1 - lam) * r2

/-- Embedding of `ewma_variance` from src/vol_models/ewma.py.
Raises ValueError unless λ ∈ (0,1); drops NaN observations and squares the
rest; the default initial variance is the mean of the first 10 squared
returns when at least 10 exist, else the mean of all of them; then
var[0] = initial variance and var[i] = λ·var[i−1] + (1−λ)·r²[i−1].
The assignment `var[0] = initial_variance` is an unguarded numpy write that
raises IndexError when the array of valid observations is empty.
The result series carries the index of the valid observations. -/
def ewma_variance (returns : Ser K) (lam : K) (initial_variance : Option K) :
    Except String (List (Nat × K)) :=
  if ¬(0 < lam ∧ lam < 1) then
    Except.error "ValueError: lambda must be in (0,1)"
  else
    let dropped := returns.filterMap (fun p => p.2.map (fun v => (p.1, v)))
    let r2 := dropped.map (fun p => p.2 ^ 2)
    let init := match initial_variance with
      | some v => v
      | none => if 10 ≤ r2.length then mean (r2.take 10) else mean r2
    if r2.length = 0 then
      Except.error "IndexError: index 0 is out of bounds for axis 0 with size 0"
    else
      Except.ok ((dropped.map (fun p => p.1)).zip
        (List.scanl (step lam) init r2.dropLast))

/-- Embedding of EWMA `forecast_next_variance`: the last element
(`.iloc[-1]`) of the variance series over the supplied training history. -/
def forecast_next_variance (train_returns : Ser K) (lam : K)
    (initial_variance : Option K) : Except String K :=
  match ewma_variance train_returns lam initial_variance with
  | .error e => .error e
  | .ok var =>
    match var.getLast? with
    | some p => .ok p.2
    | none => .error "IndexError: single positional indexer is out-of-bounds"

end Ewma

namespace Historical

/-- Embedding of `forecast_next_variance` from src/vol_models/historical.py:
`recent = train_returns.dropna().tail(window)`; raises ValueError when fewer
than `window` valid observations exist; otherwise the Bessel-corrected
(`ddof=1`) sample variance of `recent`. -/
def forecast_next_variance (train_returns : Ser K) (window : Nat) :
    Except String (Option K) :=
  let recent := (validVals train_returns).drop ((validVals train_returns).length - window)
  if recent.length < window then
    Except.error "ValueError: Not enough observations for the specified window."
  else
    Except.ok (seriesVar recent 1)

end Historical

namespace Evaluation

/-- Model of a pandas DataFrame: an index plus named value columns. -/
structure DataFrame (K : Type) where
  idx : List Nat
  cols : List (String × List (Option K))

/-- One row of the metrics table produced by `evaluate_forecasts`:
the (model, window) key plus the three loss values. -/
structure MetricRow (K : Type) where
  model : String
  window : Option ℤ
  mse_var : Option K
  mae_vol : Option K
  qlike : Option K

/-- Embedding of `walk_forward_forecast` from src/evaluation.py.
Raises ValueError when `expanding` is false and no window is given;
otherwise, for each t from `start` to the end of `returns`, the training
slice is `returns.iloc[:t]` when expanding and `returns.iloc[t-window:t]`
otherwise, every model function is applied to that slice in registration
order, and the row is keyed by the timestamp of `returns` at position t. -/
def walk_forward_forecast (returns : Ser K)
    (model_funcs : List (String × (Ser K → K)))
    (start : Nat) (expanding : Bool) (window : Option ℤ) :
    Except String (List (Nat × List (String × K))) :=
  if expanding = false ∧ window = none then
    Except.error "ValueError: Provide window when using rolling (expanding=False)."
  else
    Except.ok ((List.range (returns.length - start)).map (fun i =>
      let t := start + i
      let train := if expanding then returns.take t
        else pySlice returns ((t : ℤ) - window.getD 0) (t : ℤ)
      ((returns.getD t (0, none)).1,
        model_funcs.map (fun f => (f.1, f.2 train)))))

/-- Embedding of `mse_variance`: inner-align, then mean of squared errors. -/
def mse_variance (pred realized_var : Ser K) : Option K :=
  meanSkipna ((innerJoin pred realized_var).map
    (fun x => omap2 (fun p r => (p - r) ^ 2) x.2.1 x.2.2))

/-- Embedding of `mae_volatility`: inner-align, then mean of
|predicted volatility − sqrt(realized variance)|. -/
def mae_volatility (sqrt : K → K) (pred_vol realized_var : Ser K) : Option K :=
  meanSkipna ((innerJoin pred_vol realized_var).map
    (fun x => omap2 (fun v s => |v - s|) x.2.1 (x.2.2.bind (npSqrt sqrt))))

/-- Embedding of `qlike_loss`: inner-align, clip the forecast from below at
eps, then mean of log(clipped) + realized/clipped. -/
def qlike_loss (log : K → K) (pred_var realized_var : Ser K) (eps : K) : Option K :=
  meanSkipna ((innerJoin pred_var realized_var).map
    (fun x => omap2 (fun sp r => log sp + r / sp)
      (x.2.1.map (fun p => max p eps)) x.2.2))

/-- Column name used by `windowed_realized_volatility` for window w. -/
def rvName (w : ℤ) : String := "rv_" ++ toString w

/-- Sum of a window of possibly-NaN values: NaN when any entry is NaN. -/
def optSum (l : List (Option K)) : Option K :=
  l.foldr (omap2 (· + ·)) (some 0)

/-- Model of pandas `r2.rolling(window=w).sum()`: position i is NaN for
i + 1 < w, else the sum of the w entries ending at i. -/
def rollingSum (w : Nat) (l : List (Option K)) : List (Option K) :=
  (List.range l.length).map (fun i =>
    if i + 1 < w then none else optSum ((l.drop (i + 1 - w)).take w))

/-- Embedding of `windowed_realized_volatility` from src/evaluation.py:
for each window w, RV_t(w) = sqrt(periods_per_year / w × rolling sum of
squared returns); windows ≤ 0 raise ValueError. -/
def windowed_realized_volatility (sqrt : K → K) (returns : Ser K)
    (windows : List ℤ) (periods_per_year : K) :
    Except String (DataFrame K) := do
  let r2 : List (Option K) := returns.map (fun p => p.2.map (fun v => v ^ 2))
  let cols ← windows.mapM (fun w =>
    if w ≤ 0 then Except.error "ValueError: Window must be positive."
    else Except.ok (rvName w,
      (rollingSum w.toNat r2).map (fun s =>
        s.bind (fun x => npSqrt sqrt (periods_per_year / (w : K) * x)))))
  return ⟨returns.map (fun p => p.1), cols⟩

/-- Embedding of `windowed_realized_variance`: the realized-volatility
DataFrame squared elementwise. -/
def windowed_realized_variance (sqrt : K → K) (returns : Ser K)
    (windows : List ℤ) (periods_per_year : K) :
    Except String (DataFrame K) :=
  (windowed_realized_volatility sqrt returns windows periods_per_year).map
    (fun df => ⟨df.idx,
      df.cols.map (fun c => (c.1, c.2.map (fun v => v.map (fun x => x ^ 2))))⟩)

/-- Embedding of `evaluate_forecasts` from src/evaluation.py.
When `realized_windows` is none, realized variance is the squared return
looked up (`.loc`) at the forecast timestamps and one metrics row per model
column is produced; the `annualize_pred` flag is not consulted in this
branch.  When windows are given, forecasts are scaled by `periods_per_year`
when `annualize_pred` is set, realized variance comes from
`windowed_realized_variance`, and one row per (model, window) pair is
produced.  The final `set_index` raises KeyError when the metrics list is
empty (the empty frame has no model column). -/
def evaluate_forecasts (log sqrt : K → K) (forecast_var : DataFrame K)
    (returns : Ser K) (realized_windows : Option (List ℤ))
    (annualize_pred : Bool) (periods_per_year : K) :
    Except String (List (MetricRow K)) := do
  let rows ← match realized_windows with
    | none => do
      let realized_var ← seriesLoc
        (returns.map (fun p => (p.1, p.2.map (fun v => v ^ 2)))) forecast_var.idx
      Except.ok (forecast_var.cols.map (fun c =>
        let var_pred : Ser K := forecast_var.idx.zip c.2
        let vol_pred : Ser K := var_pred.map (fun p => (p.1, p.2.bind (npSqrt sqrt)))
        MetricRow.mk c.1 none
          (mse_variance var_pred realized_var)
          (mae_volatility sqrt vol_pred realized_var)
          (qlike_loss log var_pred realized_var (1 / 100000000))))
    | some ws => do
      let realized_var_df ← windowed_realized_variance sqrt returns ws periods_per_year
      let scale : K := if annualize_pred then periods_per_year else 1
      let nested ← forecast_var.cols.mapM (fun c => do
        let var_pred : Ser K := (forecast_var.idx.zip c.2).map
          (fun p => (p.1, p.2.map (fun v => v * scale)))
        ws.mapM (fun w => do
          let rcol ← match realized_var_df.cols.lookup (rvName w) with
            | some cv => Except.ok cv
            | none => Except.error "KeyError: column not found"
          let realized_var ← seriesLoc (realized_var_df.idx.zip rcol)
            (var_pred.map (fun p => p.1))
          let vol_pred : Ser K := var_pred.map (fun p => (p.1, p.2.bind (npSqrt sqrt)))
          Except.ok (MetricRow.mk c.1 (some w)
            (mse_variance var_pred realized_var)
            (mae_volatility sqrt vol_pred realized_var)
            (qlike_loss log var_pred realized_var (1 / 100000000)))))
      Except.ok nested.flatten
  if rows.isEmpty then
    Except.error "KeyError: set_index failed on an empty metrics frame"
  else
    Except.ok rows

end Evaluation

/-! ## Shared helper lemmas -/

theorem get?_eq_getD_of_lt {α : Type} (l : List α) (i : Nat) (d : α)
    (h : i < l.length) : l.get? i = some (l.getD i d) := by
  rw [List.getD_eq_get?]
  cases hq : l.get? i with
  | none => rw [List.get?_eq_none] at hq; omega
  | some q => rfl

theorem filterMap_pair_snd {K : Type} [LinearOrderedField K] (s : Ser K) :
    (s.filterMap (fun p => p.2.map (fun v => (p.1, v)))).map (fun p => p.2)
      = validVals s := by
  induction s with
  | nil => rfl
  | cons p rest ih =>
    cases hp : p.2 <;> simp [validVals, List.filterMap_cons, hp] <;>
      simpa [validVals] using ih

theorem scanl_getD_zero {K : Type} [LinearOrderedField K]
    (f : K → K → K) (b d : K) (l : List K) :
    (List.scanl f b l).getD 0 d = b := by
  cases l <;> rfl

theorem scanl_getD_succ {K : Type} [LinearOrderedField K]
    (f : K → K → K) (b d : K) (l : List K) (j : Nat) (h : j < l.length) :
    (List.scanl f b l).getD (j + 1) d
      = f ((List.scanl f b l).getD j d) (l.getD j d) := by
  induction l generalizing b j with
  | nil => simp at h
  | cons a l' ih =>
    cases j with
    | zero =>
      simp [List.scanl, scanl_getD_zero]
    | succ k =>
      have hk : k < l'.length := by simpa using h
      simp only [List.scanl, List.getD_cons_succ]
      exact ih (f b a) k hk

/-! ## C5: log_return contract -/

/-- C5 counterexample: the claim says `log_return` raises an error when the
input is empty; the code raises nothing there — `np.log` of the elementwise
quotient of two empty series is just the empty series, so the call returns
an empty return series. -/
theorem C5_log_returns_empty_counterexample :
    Returns.log_returns Real.log ([] : Ser ℝ) = [] := rfl

/-- C5 (amended): `log_return` never raises; on an empty input it returns an
empty sequence, and on a non-empty input of length n it returns a sequence
of the same length n whose element 0 carries the undefined marker and whose
element i, for every 1 ≤ i < n with defined neighbouring prices a = P_i and
b = P_{i−1}, carries ln(a / b) under the original timestamp.  The model is a
pure function, so it has no side effects on its input. -/
theorem C5_log_returns_contract (prices : Ser ℝ) (i : Nat) (a b : ℝ)
    (hne : prices ≠ [])
    (h1 : 1 ≤ i) (hi : i < prices.length)
    (ha : (prices.getD i ((0 : Nat), none)).2 = some a)
    (hb : (prices.getD (i - 1) ((0 : Nat), none)).2 = some b) :
    (Returns.log_returns Real.log prices).length = prices.length ∧
    ((Returns.log_returns Real.log prices).getD 0 ((0 : Nat), some 0)).2 = none ∧
    (Returns.log_returns Real.log prices).getD i ((0 : Nat), none)
      = ((prices.getD i ((0 : Nat), none)).1, some (Real.log (a / b))) := by
  have hlen : (Returns.log_returns Real.log prices).length = prices.length := by
    simp [Returns.log_returns, Returns.shift1]
  refine ⟨hlen, ?_, ?_⟩
  · obtain ⟨p, rest, rfl⟩ : ∃ p rest, prices = p :: rest := by
      cases prices with
      | nil => exact absurd rfl hne
      | cons p rest => exact ⟨p, rest, rfl⟩
    cases hp : p.2 <;>
      simp [Returns.log_returns, Returns.shift1, omap2, hp]
  · obtain ⟨j, rfl⟩ : ∃ j, i = j + 1 := ⟨i - 1, by omega⟩
    simp only [Nat.add_sub_cancel] at hb
    have hget := get?_eq_getD_of_lt prices (j + 1) ((0 : Nat), none) hi
    have hgetj := get?_eq_getD_of_lt prices j ((0 : Nat), none) (by omega)
    have hsh : (Returns.shift1 (prices.map (fun p => p.2))).get? (j + 1)
        = some (some b) := by
      unfold Returns.shift1
      rw [List.get?_take (by simpa using hi)]
      rw [List.get?_cons_succ, List.get?_map, hgetj]
      simp only [Option.map_some']
      rw [hb]
    have hmain : (Returns.log_returns Real.log prices).get? (j + 1)
        = some ((prices.getD (j + 1) ((0 : Nat), none)).1, some (Real.log (a / b))) := by
      unfold Returns.log_returns
      rw [List.get?_zipWith', hget, hsh]
      simp only [Option.map_some', Option.bind_some]
      rw [show (prices.getD (j + 1) ((0 : Nat), none)).2 = some a from ha]
      rfl
    rw [List.getD_eq_get?, hmain]
    rfl

/-- C5 witness: the amended contract evaluated on the concrete price series
[2, 6]: the output has length 2, element 0 is the undefined marker, and
element 1 is ln(6 / 2). -/
theorem C5_log_returns_contract_witness :
    (([((0 : Nat), some (2 : ℝ)), (1, some 6)] : Ser ℝ) ≠ []) ∧
    ((Returns.log_returns Real.log [((0 : Nat), some (2 : ℝ)), (1, some 6)]).length
        = ([((0 : Nat), some (2 : ℝ)), (1, some 6)] : Ser ℝ).length ∧
      ((Returns.log_returns Real.log
          [((0 : Nat), some (2 : ℝ)), (1, some 6)]).getD 0 ((0 : Nat), some 0)).2 = none ∧
      (Returns.log_returns Real.log
          [((0 : Nat), some (2 : ℝ)), (1, some 6)]).getD 1 ((0 : Nat), none)
        = ((([((0 : Nat), some (2 : ℝ)), (1, some 6)] : Ser ℝ).getD 1 ((0 : Nat), none)).1,
            some (Real.log (6 / 2)))) :=
  ⟨by simp, C5_log_returns_contract _ 1 6 2 (by simp) le_rfl (by simp) rfl rfl⟩

/-! ## C3: rolling-window forecast contract -/

/-- C3: `forecast_next_variance` of the historical model computes, whenever
the history holds at least `window` valid observations (and the Bessel
denominator window − 1 is nonzero, i.e. window ≥ 2), the Bessel-corrected
sample variance of exactly the last `window` valid observations: the sum of
squared deviations from their mean divided by window − 1; and whenever
fewer than `window` valid observations exist it raises the
"Not enough observations" ValueError. -/
theorem C3_rolling_forecast_contract (train₁ train₂ : Ser ℝ) (w₁ w₂ : Nat)
    (hw : 2 ≤ w₁) (hn : w₁ ≤ (validVals train₁).length)
    (hlt : (validVals train₂).length < w₂) :
    Historical.forecast_next_variance train₁ w₁
      = Except.ok (some
          ((((validVals train₁).drop ((validVals train₁).length - w₁)).map
              (fun x => (x - ((validVals train₁).drop
                  ((validVals train₁).length - w₁)).sum / (w₁ : ℝ)) ^ 2)).sum
            / ((w₁ : ℝ) - 1))) ∧
    Historical.forecast_next_variance train₂ w₂
      = Except.error "ValueError: Not enough observations for the specified window." := by
  constructor
  · have hlen : ((validVals train₁).drop ((validVals train₁).length - w₁)).length = w₁ := by
      rw [List.length_drop]; omega
    unfold Historical.forecast_next_variance
    rw [if_neg (by omega)]
    unfold seriesVar
    rw [if_neg (by omega)]
    rw [hlen]
    unfold mean
    rw [hlen]
    norm_num
  · have hlen : ((validVals train₂).drop ((validVals train₂).length - w₂)).length
        = (validVals train₂).length := by
      rw [List.length_drop]; omega
    unfold Historical.forecast_next_variance
    rw [if_pos (by omega)]

/-- C3 witness: for the history [1, 2, 3] and window 2 the forecast is the
sample variance of [2, 3]; for the one-point history [1] and window 5 the
insufficient-data error is raised. -/
theorem C3_rolling_forecast_contract_witness :
    (2 ≤ (validVals ([(0, some 1), (1, some 2), (2, some 3)] : Ser ℝ)).length ∧
      (validVals ([(0, some 1)] : Ser ℝ)).length < 5) ∧
    (Historical.forecast_next_variance
        ([(0, some 1), (1, some 2), (2, some 3)] : Ser ℝ) 2
      = Except.ok (some
          ((((validVals ([(0, some 1), (1, some 2), (2, some 3)] : Ser ℝ)).drop
              ((validVals ([(0, some 1), (1, some 2), (2, some 3)] : Ser ℝ)).length - 2)).map
              (fun x => (x - ((validVals ([(0, some 1), (1, some 2), (2, some 3)] : Ser ℝ)).drop
                  ((validVals ([(0, some 1), (1, some 2), (2, some 3)] : Ser ℝ)).length - 2)).sum
                    / ((2 : Nat) : ℝ)) ^ 2)).sum
            / (((2 : Nat) : ℝ) - 1))) ∧
    Historical.forecast_next_variance ([(0, some 1)] : Ser ℝ) 5
      = Except.error "ValueError: Not enough observations for the specified window.") :=
  ⟨⟨by simp [validVals], by simp [validVals]⟩,
    C3_rolling_forecast_contract _ _ 2 5 le_rfl (by simp [validVals]) (by simp [validVals])⟩

/-! ## C6: concrete rolling forecast value -/

/-- C6 counterexample: on returns [0.01, −0.02, 0.015, −0.005] with window 3
the code computes the sample variance of the LAST three observations
(`dropna().tail(window)`), which is 37/120000 ≈ 0.0003083 — not within
4·10⁻⁵ of the claimed 0.0003583 (that number is the sample variance of the
FIRST three observations). -/
theorem C6_rolling_value_counterexample :
    Historical.forecast_next_variance
        ([(0, some 0.01), (1, some (-0.02)), (2, some 0.015), (3, some (-0.005))] : Ser ℝ) 3
      = Except.ok (some (37 / 120000)) ∧
    ¬ |((37 : ℝ) / 120000) - 0.0003583| < 0.00004 := by
  constructor
  · simp only [Historical.forecast_next_variance, validVals, List.filterMap, seriesVar, mean]
    norm_num [List.sum_cons]
  · rw [not_lt, le_abs]
    right
    norm_num

/-- C6 (amended): for the return series [0.01, −0.02, 0.015, −0.005] and
window 3 the rolling one-step variance forecast returns exactly 37/120000,
i.e. approximately 0.0003083 (within 10⁻⁷). -/
theorem C6_rolling_value_amended :
    Historical.forecast_next_variance
        ([(0, some 0.01), (1, some (-0.02)), (2, some 0.015), (3, some (-0.005))] : Ser ℝ) 3
      = Except.ok (some (37 / 120000)) ∧
    |((37 : ℝ) / 120000) - 0.0003083| < 0.0000001 := by
  constructor
  · simp only [Historical.forecast_next_variance, validVals, List.filterMap, seriesVar, mean]
    norm_num [List.sum_cons]
  · rw [abs_lt]
    constructor <;> norm_num

/-! ## C2 and C10: EWMA -/

theorem ewma_dropped_sq {K : Type} [LinearOrderedField K] (returns : Ser K) :
    (returns.filterMap (fun p => p.2.map (fun v => (p.1, v)))).map (fun p => p.2 ^ 2)
      = (validVals returns).map (fun x => x ^ 2) := by
  rw [← filterMap_pair_snd returns, List.map_map]
  rfl

theorem ewma_variance_ok {K : Type} [LinearOrderedField K] (returns : Ser K) (lam : K)
    (h1 : 0 < lam) (h2 : lam < 1) (hn : 1 ≤ (validVals returns).length) :
    Ewma.ewma_variance returns lam none
      = Except.ok
          (((returns.filterMap (fun p => p.2.map (fun v => (p.1, v)))).map
              (fun p => p.1)).zip
            (List.scanl (Ewma.step lam)
              (if 10 ≤ ((validVals returns).map (fun x => x ^ 2)).length
                then mean (((validVals returns).map (fun x => x ^ 2)).take 10)
                else mean ((validVals returns).map (fun x => x ^ 2)))
              (((validVals returns).map (fun x => x ^ 2)).dropLast))) := by
  unfold Ewma.ewma_variance
  rw [if_neg (not_not_intro ⟨h1, h2⟩)]
  simp only [ewma_dropped_sq]
  rw [if_neg (by simp only [List.length_map]; omega)]

theorem C2_ewma_contract (returns : Ser ℝ) (lam mu : ℝ) (i : Nat)
    (h1 : 0 < lam) (h2 : lam < 1)
    (hn : 1 ≤ (validVals returns).length)
    (hi1 : 1 ≤ i) (hi2 : i < (validVals returns).length)
    (hmu : ¬(0 < mu ∧ mu < 1)) :
    Ewma.ewma_variance returns lam none
        = Except.ok (getOk (Ewma.ewma_variance returns lam none) []) ∧
    ((getOk (Ewma.ewma_variance returns lam none) []).map (fun p => p.2)).length
        = (validVals returns).length ∧
    ((getOk (Ewma.ewma_variance returns lam none) []).map (fun p => p.2)).getD 0 0
        = mean (((validVals returns).map (fun x => x ^ 2)).take
            (min 10 (validVals returns).length)) ∧
    ((getOk (Ewma.ewma_variance returns lam none) []).map (fun p => p.2)).getD i 0
        = lam * ((getOk (Ewma.ewma_variance returns lam none) []).map
              (fun p => p.2)).getD (i - 1) 0
          + (1 - lam) * ((validVals returns).getD (i - 1) 0) ^ 2 ∧
    Ewma.forecast_next_variance returns lam none
        = Except.ok (((getOk (Ewma.ewma_variance returns lam none) []).map
            (fun p => p.2)).getD ((validVals returns).length - 1) 0) ∧
    Ewma.ewma_variance returns mu none
        = Except.error "ValueError: lambda must be in (0,1)" := by
  have hok := ewma_variance_ok returns lam h1 h2 hn
  set V := validVals returns with hV
  set n := V.length with hn'
  set r2 : List ℝ := V.map (fun x => x ^ 2) with hr2
  set init : ℝ := if 10 ≤ r2.length then mean (r2.take 10) else mean r2 with hinit
  set idx : List Nat := (returns.filterMap (fun p => p.2.map (fun v => (p.1, v)))).map
    (fun p => p.1) with hidx
  set SC : List ℝ := List.scanl (Ewma.step lam) init r2.dropLast with hSC
  have hr2len : r2.length = n := by rw [hr2]; simp
  have hidxlen : idx.length = n := by
    rw [hidx, List.length_map, ← List.length_map
      (returns.filterMap (fun p => p.2.map (fun v => (p.1, v)))) (fun p => p.2),
      filterMap_pair_snd, ← hV]
  have hSClen : SC.length = n := by
    rw [hSC, List.length_scanl, List.length_dropLast, hr2len]; omega
  have hgetOk : getOk (Ewma.ewma_variance returns lam none) [] = idx.zip SC := by
    rw [hok]; rfl
  have hvals : (getOk (Ewma.ewma_variance returns lam none) []).map (fun p => p.2) = SC := by
    rw [hgetOk]
    exact List.map_snd_zip idx SC (by omega)
  refine ⟨by rw [hok]; rfl, by rw [hvals, hSClen], ?_, ?_, ?_, ?_⟩
  · rw [hvals, hSC, scanl_getD_zero, hinit, hr2len]
    rcases le_or_lt 10 n with h | h
    · rw [if_pos h, min_eq_left h]
    · rw [if_neg (by omega), min_eq_right (by omega), hn',
        ← List.length_map V (fun x => x ^ 2), List.take_length]
  · obtain ⟨j, rfl⟩ : ∃ j, i = j + 1 := ⟨i - 1, by omega⟩
    have hj : j < r2.dropLast.length := by
      rw [List.length_dropLast, hr2len]; omega
    rw [hvals, hSC, scanl_getD_succ _ _ _ _ j hj]
    have hdl : r2.dropLast.getD j 0 = r2.getD j 0 := by
      rw [List.dropLast_eq_take, List.getD_eq_get?, List.getD_eq_get?,
        List.get?_take (by rw [List.length_dropLast] at hj; omega)]
    have hr2j : r2.getD j 0 = (V.getD j 0) ^ 2 := by
      rw [hr2, List.getD_eq_get?, List.get?_map,
        get?_eq_getD_of_lt V j 0 (by omega)]
      rfl
    rw [hdl, hr2j]
    simp only [Nat.add_sub_cancel]
    rfl
  · have hziplen : (idx.zip SC).length = n := by
      rw [List.length_zip, hidxlen, hSClen]; omega
    obtain ⟨q, hq⟩ : ∃ q, (idx.zip SC).get? (n - 1) = some q := by
      cases hq : (idx.zip SC).get? (n - 1) with
      | none => rw [List.get?_eq_none] at hq; omega
      | some q => exact ⟨q, rfl⟩
    have hlast : (idx.zip SC).getLast? = some q := by
      rw [List.getLast?_eq_get?, hziplen, hq]
    have hq2 : ((idx.zip SC).map (fun p => p.2)).getD (n - 1) 0 = q.2 := by
      rw [List.getD_eq_get?, List.get?_map, hq]
      rfl
    unfold Ewma.forecast_next_variance
    rw [hok]
    simp only [hlast, getOk]
    rw [hq2]
  · unfold Ewma.ewma_variance
    rw [if_pos hmu]

/-- C2 witness: the EWMA contract evaluated on the two-observation return
series [1/10, 1/5] with λ = 1/2 at recursion index i = 1, and the λ-domain
error evaluated at μ = 2. -/
theorem C2_ewma_contract_witness :
    ((0 : ℝ) < 1 / 2 ∧ (1 : ℝ) / 2 < 1 ∧
      1 ≤ (validVals ([((0 : Nat), some ((1 : ℝ) / 10)), (1, some (1 / 5))] : Ser ℝ)).length ∧
      (1 : Nat) ≤ 1 ∧
      1 < (validVals ([((0 : Nat), some ((1 : ℝ) / 10)), (1, some (1 / 5))] : Ser ℝ)).length ∧
      ¬((0 : ℝ) < 2 ∧ (2 : ℝ) < 1)) ∧
    (Ewma.ewma_variance ([((0 : Nat), some ((1 : ℝ) / 10)), (1, some (1 / 5))] : Ser ℝ)
          (1 / 2) none
        = Except.ok (getOk (Ewma.ewma_variance
            ([((0 : Nat), some ((1 : ℝ) / 10)), (1, some (1 / 5))] : Ser ℝ) (1 / 2) none) []) ∧
      ((getOk (Ewma.ewma_variance
            ([((0 : Nat), some ((1 : ℝ) / 10)), (1, some (1 / 5))] : Ser ℝ) (1 / 2) none)
          []).map (fun p => p.2)).length
        = (validVals ([((0 : Nat), some ((1 : ℝ) / 10)), (1, some (1 / 5))] : Ser ℝ)).length ∧
      ((getOk (Ewma.ewma_variance
            ([((0 : Nat), some ((1 : ℝ) / 10)), (1, some (1 / 5))] : Ser ℝ) (1 / 2) none)
          []).map (fun p => p.2)).getD 0 0
        = mean (((validVals ([((0 : Nat), some ((1 : ℝ) / 10)), (1, some (1 / 5))] : Ser ℝ)).map
            (fun x => x ^ 2)).take
              (min 10 (validVals
                ([((0 : Nat), some ((1 : ℝ) / 10)), (1, some (1 / 5))] : Ser ℝ)).length)) ∧
      ((getOk (Ewma.ewma_variance
            ([((0 : Nat), some ((1 : ℝ) / 10)), (1, some (1 / 5))] : Ser ℝ) (1 / 2) none)
          []).map (fun p => p.2)).getD 1 0
        = 1 / 2 * ((getOk (Ewma.ewma_variance
              ([((0 : Nat), some ((1 : ℝ) / 10)), (1, some (1 / 5))] : Ser ℝ) (1 / 2) none)
            []).map (fun p => p.2)).getD (1 - 1) 0
          + (1 - 1 / 2) * ((validVals
              ([((0 : Nat), some ((1 : ℝ) / 10)), (1, some (1 / 5))] : Ser ℝ)).getD (1 - 1) 0) ^ 2 ∧
      Ewma.forecast_next_variance
          ([((0 : Nat), some ((1 : ℝ) / 10)), (1, some (1 / 5))] : Ser ℝ) (1 / 2) none
        = Except.ok (((getOk (Ewma.ewma_variance
              ([((0 : Nat), some ((1 : ℝ) / 10)), (1, some (1 / 5))] : Ser ℝ) (1 / 2) none)
            []).map (fun p => p.2)).getD
              ((validVals ([((0 : Nat), some ((1 : ℝ) / 10)), (1, some (1 / 5))] : Ser ℝ)).length
                - 1) 0) ∧
      Ewma.ewma_variance ([((0 : Nat), some ((1 : ℝ) / 10)), (1, some (1 / 5))] : Ser ℝ) 2 none
        = Except.error "ValueError: lambda must be in (0,1)") :=
  ⟨⟨by norm_num, by norm_num, by simp [validVals], le_rfl, by simp [validVals], by norm_num⟩,
    C2_ewma_contract _ (1 / 2) 2 1 (by norm_num) (by norm_num) (by simp [validVals])
      le_rfl (by simp [validVals]) (by norm_num)⟩

/-- C10: on a return series with no valid observations the EWMA variance —
and therefore its one-step forecast — fails with the unguarded numpy
IndexError from the out-of-bounds write `var[0] = initial_variance`
(the variance array has length 0), not with a validation ValueError; on any
series with at least one valid observation both calls succeed. -/
theorem C10_ewma_empty_crash (returns ret2 : Ser ℝ) (lam : ℝ)
    (h1 : 0 < lam) (h2 : lam < 1)
    (h0 : (validVals returns).length = 0)
    (hpos : 1 ≤ (validVals ret2).length) :
    Ewma.ewma_variance returns lam none
      = Except.error "IndexError: index 0 is out of bounds for axis 0 with size 0" ∧
    Ewma.forecast_next_variance returns lam none
      = Except.error "IndexError: index 0 is out of bounds for axis 0 with size 0" ∧
    Ewma.ewma_variance ret2 lam none
      = Except.ok (getOk (Ewma.ewma_variance ret2 lam none) []) ∧
    Ewma.forecast_next_variance ret2 lam none
      = Except.ok (getOk (Ewma.forecast_next_variance ret2 lam none) 0) := by
  have herr : Ewma.ewma_variance returns lam none
      = Except.error "IndexError: index 0 is out of bounds for axis 0 with size 0" := by
    unfold Ewma.ewma_variance
    rw [if_neg (not_not_intro ⟨h1, h2⟩)]
    simp only [ewma_dropped_sq]
    rw [if_pos (by simp only [List.length_map]; omega)]
  have hok2 := ewma_variance_ok ret2 lam h1 h2 hpos
  have hidxlen : ((ret2.filterMap (fun p => p.2.map (fun v => (p.1, v)))).map
      (fun p => p.1)).length = (validVals ret2).length := by
    rw [List.length_map, ← List.length_map
      (ret2.filterMap (fun p => p.2.map (fun v => (p.1, v)))) (fun p => p.2),
      filterMap_pair_snd]
  have hSClen : (List.scanl (Ewma.step lam)
      (if 10 ≤ ((validVals ret2).map (fun x => x ^ 2)).length
        then mean (((validVals ret2).map (fun x => x ^ 2)).take 10)
        else mean ((validVals ret2).map (fun x => x ^ 2)))
      (((validVals ret2).map (fun x => x ^ 2)).dropLast)).length
      = (validVals ret2).length := by
    rw [List.length_scanl, List.length_dropLast, List.length_map]
    omega
  obtain ⟨q, hlast⟩ : ∃ q, (((ret2.filterMap (fun p => p.2.map (fun v => (p.1, v)))).map
      (fun p => p.1)).zip
        (List.scanl (Ewma.step lam)
          (if 10 ≤ ((validVals ret2).map (fun x => x ^ 2)).length
            then mean (((validVals ret2).map (fun x => x ^ 2)).take 10)
            else mean ((validVals ret2).map (fun x => x ^ 2)))
          (((validVals ret2).map (fun x => x ^ 2)).dropLast))).getLast? = some q := by
    rw [List.getLast?_eq_get?]
    set Z := (((ret2.filterMap (fun p => p.2.map (fun v => (p.1, v)))).map
      (fun p => p.1)).zip
        (List.scanl (Ewma.step lam)
          (if 10 ≤ ((validVals ret2).map (fun x => x ^ 2)).length
            then mean (((validVals ret2).map (fun x => x ^ 2)).take 10)
            else mean ((validVals ret2).map (fun x => x ^ 2)))
          (((validVals ret2).map (fun x => x ^ 2)).dropLast))) with hZ
    have hzlen : Z.length = (validVals ret2).length := by
      rw [hZ, List.length_zip, hidxlen, hSClen]
      omega
    cases hq : Z.get? (Z.length - 1) with
    | none => rw [List.get?_eq_none] at hq; omega
    | some q => exact ⟨q, rfl⟩
  have hfc : Ewma.forecast_next_variance ret2 lam none = Except.ok q.2 := by
    unfold Ewma.forecast_next_variance
    rw [hok2]
    simp only [hlast]
  refine ⟨herr, ?_, by rw [hok2]; rfl, by rw [hfc]; rfl⟩
  unfold Ewma.forecast_next_variance
  rw [herr]

/-- C10 witness: the EWMA calls crash with the IndexError on the series
whose single value is the NaN marker, and succeed on the one-observation
series [1/10]. -/
theorem C10_ewma_empty_crash_witness :
    ((0 : ℝ) < 1 / 2 ∧ (1 : ℝ) / 2 < 1 ∧
      (validVals ([((0 : Nat), (none : Option ℝ))] : Ser ℝ)).length = 0 ∧
      1 ≤ (validVals ([((0 : Nat), some ((1 : ℝ) / 10))] : Ser ℝ)).length) ∧
    (Ewma.ewma_variance ([((0 : Nat), (none : Option ℝ))] : Ser ℝ) (1 / 2) none
      = Except.error "IndexError: index 0 is out of bounds for axis 0 with size 0" ∧
    Ewma.forecast_next_variance ([((0 : Nat), (none : Option ℝ))] : Ser ℝ) (1 / 2) none
      = Except.error "IndexError: index 0 is out of bounds for axis 0 with size 0" ∧
    Ewma.ewma_variance ([((0 : Nat), some ((1 : ℝ) / 10))] : Ser ℝ) (1 / 2) none
      = Except.ok (getOk (Ewma.ewma_variance
          ([((0 : Nat), some ((1 : ℝ) / 10))] : Ser ℝ) (1 / 2) none) []) ∧
    Ewma.forecast_next_variance ([((0 : Nat), some ((1 : ℝ) / 10))] : Ser ℝ) (1 / 2) none
      = Except.ok (getOk (Ewma.forecast_next_variance
          ([((0 : Nat), some ((1 : ℝ) / 10))] : Ser ℝ) (1 / 2) none) 0)) :=
  ⟨⟨by norm_num, by norm_num, by simp [validVals], by simp [validVals]⟩,
    C10_ewma_empty_crash _ _ (1 / 2) (by norm_num) (by norm_num)
      (by simp [validVals]) (by simp [validVals])⟩

/-! ## C1: walk-forward no-look-ahead -/

theorem pySlice_of_nonneg {α : Type} (l : List α) (t wn : Nat)
    (hw : wn ≤ t) (ht : t ≤ l.length) :
    pySlice l ((t : ℤ) - (wn : ℤ)) (t : ℤ) = (l.take t).drop (t - wn) := by
  unfold pySlice pyBound
  rw [if_neg (by omega), if_neg (by omega)]
  have h1 : ((t : ℤ) - (wn : ℤ)).toNat = t - wn := by omega
  have h2 : ((t : ℕ) : ℤ).toNat = t := by omega
  rw [h1, h2, min_eq_left ht, min_eq_left (by omega)]

theorem walk_forward_ok (returns : Ser ℝ)
    (model_funcs : List (String × (Ser ℝ → ℝ)))
    (start : Nat) (expanding : Bool) (window : Option ℤ)
    (hcond : ¬(expanding = false ∧ window = none)) :
    Evaluation.walk_forward_forecast returns model_funcs start expanding window
      = Except.ok ((List.range (returns.length - start)).map (fun j =>
          ((returns.getD (start + j) ((0 : Nat), none)).1,
            model_funcs.map (fun f => (f.1,
              f.2 (if expanding then returns.take (start + j)
                else pySlice returns (((start + j : Nat) : ℤ) - window.getD 0)
                  ((start + j : Nat) : ℤ))))))) := by
  unfold Evaluation.walk_forward_forecast
  rw [if_neg hcond]

/-- C1: the walk-forward harness (given a window 0 ≤ w ≤ start when not
expanding) succeeds, produces one row per target index t = start + i up to
the end of `returns`, keyed by the timestamp of `returns` at position t, in
which every registered estimator appears exactly once applied to the
training slice `returns[0:t]` (expanding) or `returns[t-window:t]`
(rolling) — both of which are sublists of the strict past `returns[0:t]`;
consequently the forecast values of row i agree for any other return series
of the same length whose first t entries coincide (mutating `returns[t]` or
later never changes the forecast for index t). -/
theorem C1_walk_forward_no_lookahead (returns returns₂ : Ser ℝ)
    (model_funcs : List (String × (Ser ℝ → ℝ)))
    (start : Nat) (expanding : Bool) (window : Option ℤ) (i : Nat)
    (hok : expanding = true ∨ ∃ w : ℤ, window = some w ∧ 0 ≤ w ∧ w.toNat ≤ start)
    (hi : start + i < returns.length)
    (hlen : returns₂.length = returns.length)
    (htake : returns₂.take (start + i) = returns.take (start + i)) :
    Evaluation.walk_forward_forecast returns model_funcs start expanding window
      = Except.ok (getOk
          (Evaluation.walk_forward_forecast returns model_funcs start expanding window) []) ∧
    (getOk (Evaluation.walk_forward_forecast returns model_funcs start expanding window)
        []).length = returns.length - start ∧
    (getOk (Evaluation.walk_forward_forecast returns model_funcs start expanding window)
        []).get? i
      = some ((returns.getD (start + i) ((0 : Nat), none)).1,
          model_funcs.map (fun f => (f.1,
            f.2 (if expanding then returns.take (start + i)
              else (returns.take (start + i)).drop
                (start + i - (window.getD 0).toNat))))) ∧
    ((getOk (Evaluation.walk_forward_forecast returns₂ model_funcs start expanding window)
        []).get? i).map (fun r => r.2)
      = ((getOk (Evaluation.walk_forward_forecast returns model_funcs start expanding window)
        []).get? i).map (fun r => r.2) := by
  have hcond : ¬(expanding = false ∧ window = none) := by
    rcases hok with he | ⟨w, hw, _, _⟩
    · rintro ⟨hf, -⟩; rw [he] at hf; cases hf
    · rintro ⟨-, hn⟩; rw [hw] at hn; cases hn
  have hb1 := walk_forward_ok returns model_funcs start expanding window hcond
  have hb2 := walk_forward_ok returns₂ model_funcs start expanding window hcond
  have hslice : ∀ (l : Ser ℝ), start + i ≤ l.length →
      (if expanding then l.take (start + i)
        else pySlice l (((start + i : Nat) : ℤ) - window.getD 0) ((start + i : Nat) : ℤ))
      = (if expanding then l.take (start + i)
        else (l.take (start + i)).drop (start + i - (window.getD 0).toNat)) := by
    intro l hl
    cases hexp : expanding with
    | true => rfl
    | false =>
      rcases hok with he | ⟨w, hw, hw0, hws⟩
      · rw [hexp] at he; cases he
      · simp only [if_neg Bool.false_ne_true]
        rw [hw]
        have : ((some w).getD 0) = w := rfl
        rw [this]
        have hwn : w = ((w.toNat : Nat) : ℤ) := by omega
        rw [hwn]
        exact pySlice_of_nonneg l (start + i) w.toNat (by omega) hl
  have hrow1 : (getOk (Evaluation.walk_forward_forecast returns model_funcs start
      expanding window) []).get? i
      = some ((returns.getD (start + i) ((0 : Nat), none)).1,
          model_funcs.map (fun f => (f.1,
            f.2 (if expanding then returns.take (start + i)
              else (returns.take (start + i)).drop
                (start + i - (window.getD 0).toNat))))) := by
    rw [hb1]
    show ((List.range (returns.length - start)).map _).get? i = _
    rw [List.get?_map, List.get?_range (by omega)]
    simp only [Option.map_some']
    rw [hslice returns (by omega)]
  have hrow2 : (getOk (Evaluation.walk_forward_forecast returns₂ model_funcs start
      expanding window) []).get? i
      = some ((returns₂.getD (start + i) ((0 : Nat), none)).1,
          model_funcs.map (fun f => (f.1,
            f.2 (if expanding then returns₂.take (start + i)
              else (returns₂.take (start + i)).drop
                (start + i - (window.getD 0).toNat))))) := by
    rw [hb2]
    show ((List.range (returns₂.length - start)).map _).get? i = _
    rw [List.get?_map, List.get?_range (by omega)]
    simp only [Option.map_some']
    rw [hslice returns₂ (by omega)]
  refine ⟨by rw [hb1]; rfl,
    by rw [hb1]; show ((List.range (returns.length - start)).map _).length = _; simp,
    hrow1, ?_⟩
  rw [hrow1, hrow2]
  simp only [Option.map_some']
  rw [htake]

/-- C1 witness: the harness on the three-observation series with timestamps
10, 11, 12 and values 1/10, 1/5, 3/10, a single estimator summing the valid
training values, start = 2, rolling window 2, compared against a mutated
series whose entry at index 2 is changed to 9: the row for index 2 and its
forecast values coincide. -/
theorem C1_walk_forward_no_lookahead_witness :
    ((false = true ∨ ∃ w : ℤ, (some (2 : ℤ)) = some w ∧ 0 ≤ w ∧ w.toNat ≤ 2) ∧
      2 + 0 < ([((10 : Nat), some ((1 : ℝ) / 10)), (11, some (1 / 5)),
        (12, some (3 / 10))] : Ser ℝ).length ∧
      ([((10 : Nat), some ((1 : ℝ) / 10)), (11, some (1 / 5)),
        (12, some (9 : ℝ))] : Ser ℝ).length
        = ([((10 : Nat), some ((1 : ℝ) / 10)), (11, some (1 / 5)),
          (12, some (3 / 10))] : Ser ℝ).length ∧
      ([((10 : Nat), some ((1 : ℝ) / 10)), (11, some (1 / 5)),
        (12, some (9 : ℝ))] : Ser ℝ).take (2 + 0)
        = ([((10 : Nat), some ((1 : ℝ) / 10)), (11, some (1 / 5)),
          (12, some (3 / 10))] : Ser ℝ).take (2 + 0)) ∧
    (Evaluation.walk_forward_forecast
        ([((10 : Nat), some ((1 : ℝ) / 10)), (11, some (1 / 5)),
          (12, some (3 / 10))] : Ser ℝ)
        [("sum", fun s => (validVals s).sum)] 2 false (some 2)
      = Except.ok (getOk (Evaluation.walk_forward_forecast
          ([((10 : Nat), some ((1 : ℝ) / 10)), (11, some (1 / 5)),
            (12, some (3 / 10))] : Ser ℝ)
          [("sum", fun s => (validVals s).sum)] 2 false (some 2)) []) ∧
    (getOk (Evaluation.walk_forward_forecast
        ([((10 : Nat), some ((1 : ℝ) / 10)), (11, some (1 / 5)),
          (12, some (3 / 10))] : Ser ℝ)
        [("sum", fun s => (validVals s).sum)] 2 false (some 2)) []).length
      = ([((10 : Nat), some ((1 : ℝ) / 10)), (11, some (1 / 5)),
          (12, some (3 / 10))] : Ser ℝ).length - 2 ∧
    (getOk (Evaluation.walk_forward_forecast
        ([((10 : Nat), some ((1 : ℝ) / 10)), (11, some (1 / 5)),
          (12, some (3 / 10))] : Ser ℝ)
        [("sum", fun s => (validVals s).sum)] 2 false (some 2)) []).get? 0
      = some ((([((10 : Nat), some ((1 : ℝ) / 10)), (11, some (1 / 5)),
            (12, some (3 / 10))] : Ser ℝ).getD (2 + 0) ((0 : Nat), none)).1,
          [("sum", fun s => (validVals s).sum)].map
            (fun f => (f.1, f.2 (if false then
                ([((10 : Nat), some ((1 : ℝ) / 10)), (11, some (1 / 5)),
                  (12, some (3 / 10))] : Ser ℝ).take (2 + 0)
              else (([((10 : Nat), some ((1 : ℝ) / 10)), (11, some (1 / 5)),
                  (12, some (3 / 10))] : Ser ℝ).take (2 + 0)).drop
                    (2 + 0 - ((some (2 : ℤ)).getD 0).toNat))))) ∧
    ((getOk (Evaluation.walk_forward_forecast
        ([((10 : Nat), some ((1 : ℝ) / 10)), (11, some (1 / 5)),
          (12, some (9 : ℝ))] : Ser ℝ)
        [("sum", fun s => (validVals s).sum)] 2 false (some 2)) []).get? 0).map
          (fun r => r.2)
      = ((getOk (Evaluation.walk_forward_forecast
          ([((10 : Nat), some ((1 : ℝ) / 10)), (11, some (1 / 5)),
            (12, some (3 / 10))] : Ser ℝ)
          [("sum", fun s => (validVals s).sum)] 2 false (some 2)) []).get? 0).map
            (fun r => r.2)) :=
  ⟨⟨Or.inr ⟨2, rfl, by norm_num, by norm_num⟩, by norm_num, rfl, rfl⟩,
    C1_walk_forward_no_lookahead _ _ _ 2 false (some 2) 0
      (Or.inr ⟨2, rfl, by norm_num, by norm_num⟩) (by norm_num) rfl rfl⟩

/-! ## C7: windowed realized variance -/

theorem exceptMapM_ok {α β : Type} (f : α → Except String β) (g : α → β)
    (l : List α) (h : ∀ x ∈ l, f x = Except.ok (g x)) :
    l.mapM f = Except.ok (l.map g) := by
  induction l with
  | nil => rfl
  | cons a t ih =>
    rw [List.mapM_cons, h a (by simp), ih (fun x hx => h x (by simp [hx]))]
    rfl

theorem exceptMapM_err {α β : Type} (f : α → Except String β) (g : α → β)
    (l : List α) (e : String)
    (h : ∀ y ∈ l, f y = Except.ok (g y) ∨ f y = Except.error e)
    (hex : ∃ x ∈ l, f x = Except.error e) :
    l.mapM f = Except.error e := by
  induction l with
  | nil => obtain ⟨x, hx, -⟩ := hex; cases hx
  | cons a t ih =>
    rcases h a (by simp) with ha | ha
    · obtain ⟨x, hx, hxe⟩ := hex
      rcases List.mem_cons.mp hx with rfl | hxt
      · rw [ha] at hxe; cases hxe
      · rw [List.mapM_cons, ha,
          ih (fun y hy => h y (by simp [hy])) ⟨x, hxt, hxe⟩]
        rfl
    · rw [List.mapM_cons, ha]
      rfl

theorem optSum_map_some {K : Type} [LinearOrderedField K] (f : K → K) (l : List K) :
    Evaluation.optSum (l.map (fun x => some (f x))) = some ((l.map f).sum) := by
  induction l with
  | nil => rfl
  | cons a t ih =>
    simp only [List.map_cons, Evaluation.optSum, List.foldr_cons, List.sum_cons]
    rw [show (t.map (fun x => some (f x))).foldr (omap2 (· + ·)) (some 0)
        = Evaluation.optSum (t.map (fun x => some (f x))) from rfl, ih]
    rfl

theorem rollingSum_get? {K : Type} [LinearOrderedField K]
    (w : Nat) (l : List (Option K)) (i : Nat) (hi : i < l.length) :
    (Evaluation.rollingSum w l).get? i
      = some (if i + 1 < w then none
          else Evaluation.optSum ((l.drop (i + 1 - w)).take w)) := by
  unfold Evaluation.rollingSum
  rw [List.get?_map, List.get?_range hi]
  rfl

theorem wrvol_ok (returns : Ser ℝ) (ws : List ℤ) (ppy : ℝ)
    (hpos : ∀ x ∈ ws, 0 < x) :
    Evaluation.windowed_realized_volatility Real.sqrt returns ws ppy
      = Except.ok (Evaluation.DataFrame.mk (returns.map (fun p => p.1))
          (ws.map (fun w => (Evaluation.rvName w,
            (Evaluation.rollingSum w.toNat
                (returns.map (fun p => p.2.map (fun v => v ^ 2)))).map (fun s =>
              s.bind (fun x => npSqrt Real.sqrt (ppy / (w : ℝ) * x))))))) := by
  unfold Evaluation.windowed_realized_volatility
  dsimp only []
  rw [exceptMapM_ok _ (fun w => (Evaluation.rvName w,
      (Evaluation.rollingSum w.toNat
          (returns.map (fun p => p.2.map (fun v => v ^ 2)))).map (fun s =>
        s.bind (fun x => npSqrt Real.sqrt (ppy / (w : ℝ) * x))))) ws
    (fun x hx => by rw [if_neg (by have := hpos x hx; omega)])]
  rfl

theorem wrvol_err (returns : Ser ℝ) (ws : List ℤ) (ppy : ℝ)
    (hbad : ∃ x ∈ ws, x ≤ 0) :
    Evaluation.windowed_realized_volatility Real.sqrt returns ws ppy
      = Except.error "ValueError: Window must be positive." := by
  unfold Evaluation.windowed_realized_volatility
  dsimp only []
  rw [exceptMapM_err _ (fun w => (Evaluation.rvName w,
      (Evaluation.rollingSum w.toNat
          (returns.map (fun p => p.2.map (fun v => v ^ 2)))).map (fun s =>
        s.bind (fun x => npSqrt Real.sqrt (ppy / (w : ℝ) * x))))) ws
      "ValueError: Window must be positive."
    (fun y _ => by
      by_cases h : y ≤ 0
      · right; rw [if_pos h]
      · left; rw [if_neg h])
    (by obtain ⟨x, hx, hxle⟩ := hbad; exact ⟨x, hx, by rw [if_pos hxle]⟩)]
  rfl

/-- C7: for a clean return series (timestamps ts, values rs), positive
windows and nonnegative periods_per_year, `windowed_realized_variance`
succeeds, keeps the index of the returns, names the j-th column after the
j-th window w, and its value at position i is the undefined marker for the
first w − 1 positions and (periods_per_year / w) × (sum of the squared
returns of the w observations ending at i inclusive) afterwards; the
corresponding `windowed_realized_volatility` value is the square root of
that realized variance; and a windows list containing any value ≤ 0 makes
the call raise the window ValueError. -/
theorem C7_windowed_realized_variance (ts : List Nat) (rs : List ℝ)
    (ws ws₂ : List ℤ) (ppy : ℝ) (j : Nat) (w : ℤ) (i : Nat)
    (hlen : ts.length = rs.length)
    (hpos : ∀ x ∈ ws, 0 < x)
    (hppy : 0 ≤ ppy)
    (hj : ws.get? j = some w)
    (hi : i < rs.length)
    (hbad : ∃ x ∈ ws₂, x ≤ 0) :
    Evaluation.windowed_realized_variance Real.sqrt (ts.zip (rs.map some)) ws ppy
      = Except.ok (getOk (Evaluation.windowed_realized_variance Real.sqrt
          (ts.zip (rs.map some)) ws ppy) (Evaluation.DataFrame.mk [] [])) ∧
    (getOk (Evaluation.windowed_realized_variance Real.sqrt
        (ts.zip (rs.map some)) ws ppy) (Evaluation.DataFrame.mk [] [])).idx = ts ∧
    ((getOk (Evaluation.windowed_realized_variance Real.sqrt
        (ts.zip (rs.map some)) ws ppy) (Evaluation.DataFrame.mk [] [])).cols.getD j
          ("", [])).1 = Evaluation.rvName w ∧
    ((getOk (Evaluation.windowed_realized_variance Real.sqrt
        (ts.zip (rs.map some)) ws ppy) (Evaluation.DataFrame.mk [] [])).cols.getD j
          ("", [])).2.getD i (some 37)
      = (if i + 1 < w.toNat then none
          else some (ppy / (w : ℝ)
            * (((rs.drop (i + 1 - w.toNat)).take w.toNat).map (fun x => x ^ 2)).sum)) ∧
    ((getOk (Evaluation.windowed_realized_volatility Real.sqrt
        (ts.zip (rs.map some)) ws ppy) (Evaluation.DataFrame.mk [] [])).cols.getD j
          ("", [])).2.getD i (some 37)
      = (if i + 1 < w.toNat then none
          else some (Real.sqrt (ppy / (w : ℝ)
            * (((rs.drop (i + 1 - w.toNat)).take w.toNat).map (fun x => x ^ 2)).sum))) ∧
    Evaluation.windowed_realized_variance Real.sqrt (ts.zip (rs.map some)) ws₂ ppy
      = Except.error "ValueError: Window must be positive." := by
  set R : Ser ℝ := ts.zip (rs.map some) with hR
  have hwmem : w ∈ ws := List.get?_mem hj
  have hw0 : 0 < w := hpos w hwmem
  have hr2 : R.map (fun p => p.2.map (fun v => v ^ 2))
      = rs.map (fun x => some (x ^ 2)) := by
    have hsnd : R.map (fun p => p.2) = rs.map some := by
      rw [hR]
      exact List.map_snd_zip ts (rs.map some) (by rw [List.length_map]; omega)
    calc R.map (fun p => p.2.map (fun v => v ^ 2))
        = (R.map (fun p => p.2)).map (fun o => o.map (fun v => v ^ 2)) := by
          rw [List.map_map]; rfl
      _ = (rs.map some).map (fun o => o.map (fun v => v ^ 2)) := by rw [hsnd]
      _ = rs.map (fun x => some (x ^ 2)) := by rw [List.map_map]; rfl
  have hvol := wrvol_ok R ws ppy hpos
  rw [hr2] at hvol
  have hvar : Evaluation.windowed_realized_variance Real.sqrt R ws ppy
      = Except.ok (Evaluation.DataFrame.mk (R.map (fun p => p.1))
          ((ws.map (fun w => (Evaluation.rvName w,
            (Evaluation.rollingSum w.toNat (rs.map (fun x => some (x ^ 2)))).map (fun s =>
              s.bind (fun x => npSqrt Real.sqrt (ppy / (w : ℝ) * x)))))).map
                (fun c => (c.1, c.2.map (fun v => v.map (fun x => x ^ 2)))))) := by
    unfold Evaluation.windowed_realized_variance
    rw [hvol]
    rfl
  have hidx : R.map (fun p => p.1) = ts := by
    rw [hR]
    exact List.map_fst_zip ts (rs.map some) (by rw [List.length_map]; omega)
  -- the j-th volatility column
  have hcolsget : ∀ (h : ℤ → String × List (Option ℝ)),
      (ws.map h).getD j ("", []) = h w := by
    intro h
    rw [List.getD_eq_get?, List.get?_map, hj]
    rfl
  have hr2len : (rs.map (fun x => some (x ^ 2))).length = rs.length := by
    rw [List.length_map]
  have hroll := rollingSum_get? w.toNat (rs.map (fun x => some (x ^ 2))) i
    (by omega)
  have hsum : Evaluation.optSum (((rs.map (fun x => some (x ^ 2))).drop
        (i + 1 - w.toNat)).take w.toNat)
      = some ((((rs.drop (i + 1 - w.toNat)).take w.toNat).map (fun x => x ^ 2)).sum) := by
    rw [← List.map_drop, ← List.map_take]
    exact optSum_map_some (fun x => x ^ 2) ((rs.drop (i + 1 - w.toNat)).take w.toNat)
  have hS0 : 0 ≤ (((rs.drop (i + 1 - w.toNat)).take w.toNat).map (fun x => x ^ 2)).sum := by
    apply List.sum_nonneg
    intro x hx
    obtain ⟨y, -, rfl⟩ := List.mem_map.mp hx
    positivity
  have hfac : 0 ≤ ppy / (w : ℝ)
      * (((rs.drop (i + 1 - w.toNat)).take w.toNat).map (fun x => x ^ 2)).sum := by
    apply mul_nonneg _ hS0
    apply div_nonneg hppy
    exact_mod_cast le_of_lt hw0
  have hvolval : ((Evaluation.rollingSum w.toNat (rs.map (fun x => some (x ^ 2)))).map
        (fun s => s.bind (fun x => npSqrt Real.sqrt (ppy / (w : ℝ) * x)))).getD i (some 37)
      = (if i + 1 < w.toNat then none
          else some (Real.sqrt (ppy / (w : ℝ)
            * (((rs.drop (i + 1 - w.toNat)).take w.toNat).map (fun x => x ^ 2)).sum))) := by
    rw [List.getD_eq_get?, List.get?_map, hroll]
    simp only [Option.map_some', Option.getD_some]
    by_cases hcase : i + 1 < w.toNat
    · rw [if_pos hcase, if_pos hcase]
      rfl
    · rw [if_neg hcase, if_neg hcase, hsum]
      simp only [Option.some_bind]
      unfold npSqrt
      rw [if_neg (by exact not_lt.mpr hfac)]
  refine ⟨by rw [hvar]; rfl, by rw [hvar]; exact hidx, ?_, ?_, ?_, ?_⟩
  · rw [hvar]
    simp only [getOk, List.map_map]
    rw [hcolsget]
    rfl
  · rw [hvar]
    simp only [getOk, List.map_map]
    rw [hcolsget]
    simp only [Function.comp_apply]
    rw [List.getD_eq_get?, List.get?_map]
    rw [List.getD_eq_get?] at hvolval
    cases hgi : (Evaluation.rollingSum w.toNat (rs.map (fun x => some (x ^ 2)))).get? i with
    | none =>
      exfalso
      rw [List.get?_eq_none] at hgi
      have : (Evaluation.rollingSum w.toNat (rs.map (fun x => some (x ^ 2)))).length
          = rs.length := by
        unfold Evaluation.rollingSum
        rw [List.length_map, List.length_range, List.length_map]
      omega
    | some v =>
      rw [List.get?_map, hgi] at hvolval
      rw [List.get?_map, hgi]
      simp only [Option.map_some', Option.getD_some] at hvolval ⊢
      rw [hvolval]
      by_cases hcase : i + 1 < w.toNat
      · rw [if_pos hcase, if_pos hcase]
        rfl
      · rw [if_neg hcase, if_neg hcase]
        simp only [Option.map_some']
        rw [Real.sq_sqrt hfac]
  · rw [hvol]
    simp only [getOk]
    rw [hcolsget]
    exact hvolval
  · unfold Evaluation.windowed_realized_variance
    rw [wrvol_err R ws₂ ppy hbad]
    rfl

/-- C7 witness: returns with timestamps [0, 1] and values [1/2, 1/3],
windows [1, 2] examined at column j = 1 (window 2) and position i = 1,
periods_per_year = 252, against the bad windows list [0]: the variance
entry is 252/2 × ((1/2)² + (1/3)²) and the volatility entry its square
root. -/
theorem C7_windowed_realized_variance_witness :
    (([(0 : Nat), 1] : List Nat).length = ([(1 : ℝ) / 2, 1 / 3] : List ℝ).length ∧
      (∀ x ∈ ([1, 2] : List ℤ), 0 < x) ∧ (0 : ℝ) ≤ 252 ∧
      ([1, 2] : List ℤ).get? 1 = some 2 ∧ 1 < ([(1 : ℝ) / 2, 1 / 3] : List ℝ).length ∧
      (∃ x ∈ ([0] : List ℤ), x ≤ 0)) ∧
    (Evaluation.windowed_realized_variance Real.sqrt
        (([(0 : Nat), 1] : List Nat).zip (([(1 : ℝ) / 2, 1 / 3] : List ℝ).map some))
        ([1, 2] : List ℤ) 252
      = Except.ok (getOk (Evaluation.windowed_realized_variance Real.sqrt
          (([(0 : Nat), 1] : List Nat).zip (([(1 : ℝ) / 2, 1 / 3] : List ℝ).map some))
          ([1, 2] : List ℤ) 252) (Evaluation.DataFrame.mk [] [])) ∧
    (getOk (Evaluation.windowed_realized_variance Real.sqrt
        (([(0 : Nat), 1] : List Nat).zip (([(1 : ℝ) / 2, 1 / 3] : List ℝ).map some))
        ([1, 2] : List ℤ) 252) (Evaluation.DataFrame.mk [] [])).idx = [(0 : Nat), 1] ∧
    ((getOk (Evaluation.windowed_realized_variance Real.sqrt
        (([(0 : Nat), 1] : List Nat).zip (([(1 : ℝ) / 2, 1 / 3] : List ℝ).map some))
        ([1, 2] : List ℤ) 252) (Evaluation.DataFrame.mk [] [])).cols.getD 1
          ("", [])).1 = Evaluation.rvName 2 ∧
    ((getOk (Evaluation.windowed_realized_variance Real.sqrt
        (([(0 : Nat), 1] : List Nat).zip (([(1 : ℝ) / 2, 1 / 3] : List ℝ).map some))
        ([1, 2] : List ℤ) 252) (Evaluation.DataFrame.mk [] [])).cols.getD 1
          ("", [])).2.getD 1 (some 37)
      = (if 1 + 1 < (2 : ℤ).toNat then none
          else some ((252 : ℝ) / ((2 : ℤ) : ℝ)
            * (((([(1 : ℝ) / 2, 1 / 3] : List ℝ).drop (1 + 1 - (2 : ℤ).toNat)).take
                (2 : ℤ).toNat).map (fun x => x ^ 2)).sum)) ∧
    ((getOk (Evaluation.windowed_realized_volatility Real.sqrt
        (([(0 : Nat), 1] : List Nat).zip (([(1 : ℝ) / 2, 1 / 3] : List ℝ).map some))
        ([1, 2] : List ℤ) 252) (Evaluation.DataFrame.mk [] [])).cols.getD 1
          ("", [])).2.getD 1 (some 37)
      = (if 1 + 1 < (2 : ℤ).toNat then none
          else some (Real.sqrt ((252 : ℝ) / ((2 : ℤ) : ℝ)
            * (((([(1 : ℝ) / 2, 1 / 3] : List ℝ).drop (1 + 1 - (2 : ℤ).toNat)).take
                (2 : ℤ).toNat).map (fun x => x ^ 2)).sum))) ∧
    Evaluation.windowed_realized_variance Real.sqrt
        (([(0 : Nat), 1] : List Nat).zip (([(1 : ℝ) / 2, 1 / 3] : List ℝ).map some))
        ([0] : List ℤ) 252
      = Except.error "ValueError: Window must be positive.") :=
  ⟨⟨rfl, by decide, by norm_num, rfl, by norm_num, ⟨0, by simp, le_rfl⟩⟩,
    C7_windowed_realized_variance [0, 1] [1 / 2, 1 / 3] [1, 2] [0] 252 1 2 1
      rfl (by decide) (by norm_num) rfl (by norm_num) ⟨0, by simp, le_rfl⟩⟩

/-! ## C8: QLIKE loss -/

/-- C8: for every pair of forecast-variance and realized-variance series
whose inner join consists of the defined pairs J (no NaN on either side)
and is nonempty, `qlike_loss` with its default ε = 1e−8 equals the mean
over the joined timestamps of ln(max(forecast, ε)) + realized /
max(forecast, ε).  The statement carries no positivity requirement on the
forecasts: a forecast of exactly zero is clamped to ε by the max and the
function always returns a value — it can raise nothing. -/
theorem C8_qlike_loss (pred realized : Ser ℝ) (J : List (Nat × ℝ × ℝ))
    (hJ : innerJoin pred realized = J.map (fun x => (x.1, some x.2.1, some x.2.2)))
    (hne : J ≠ []) :
    Evaluation.qlike_loss Real.log pred realized (1e-8)
      = some ((J.map (fun x =>
          Real.log (max x.2.1 (1e-8)) + x.2.2 / max x.2.1 (1e-8))).sum / J.length) := by
  unfold Evaluation.qlike_loss
  rw [hJ, List.map_map]
  have hcomp : ((fun x : Nat × Option ℝ × Option ℝ =>
        omap2 (fun sp r => Real.log sp + r / sp)
          (x.2.1.map (fun p => max p (1e-8))) x.2.2)
      ∘ (fun x : Nat × ℝ × ℝ => (x.1, some x.2.1, some x.2.2)))
      = fun x : Nat × ℝ × ℝ => some
          (Real.log (max x.2.1 (1e-8)) + x.2.2 / max x.2.1 (1e-8)) := by
    funext x
    rfl
  rw [hcomp]
  unfold meanSkipna
  have hfm : (J.map (fun x : Nat × ℝ × ℝ => some
        (Real.log (max x.2.1 (1e-8)) + x.2.2 / max x.2.1 (1e-8)))).filterMap id
      = J.map (fun x =>
          Real.log (max x.2.1 (1e-8)) + x.2.2 / max x.2.1 (1e-8)) := by
    rw [List.filterMap_map]
    exact List.filterMap_eq_map _ ▸ rfl
  rw [hfm]
  rw [if_neg (by
    intro hc
    rw [List.isEmpty_iff, List.map_eq_nil] at hc
    exact hne hc)]
  unfold mean
  rw [List.length_map]

/-- C8 witness: for the one-point forecast series (value 1) and realized
series (value 0) sharing timestamp 0, the QLIKE loss is
(ln(max(1, ε)) + 0 / max(1, ε)) / 1. -/
theorem C8_qlike_loss_witness :
    (innerJoin ([((0 : Nat), some (1 : ℝ))] : Ser ℝ) ([((0 : Nat), some (0 : ℝ))] : Ser ℝ)
        = ([((0 : Nat), (1 : ℝ), (0 : ℝ))] : List (Nat × ℝ × ℝ)).map
            (fun x => (x.1, some x.2.1, some x.2.2)) ∧
      ([((0 : Nat), (1 : ℝ), (0 : ℝ))] : List (Nat × ℝ × ℝ)) ≠ []) ∧
    Evaluation.qlike_loss Real.log ([((0 : Nat), some (1 : ℝ))] : Ser ℝ)
        ([((0 : Nat), some (0 : ℝ))] : Ser ℝ) (1e-8)
      = some ((([((0 : Nat), (1 : ℝ), (0 : ℝ))] : List (Nat × ℝ × ℝ)).map (fun x =>
          Real.log (max x.2.1 (1e-8)) + x.2.2 / max x.2.1 (1e-8))).sum
            / ([((0 : Nat), (1 : ℝ), (0 : ℝ))] : List (Nat × ℝ × ℝ)).length) :=
  ⟨⟨rfl, by simp⟩,
    C8_qlike_loss [((0 : Nat), some (1 : ℝ))] [((0 : Nat), some (0 : ℝ))]
      [((0 : Nat), (1 : ℝ), (0 : ℝ))] rfl (by simp)⟩

/-! ## C9: unmatched forecast timestamps raise a lookup error -/

theorem lookup_none_of_fst_ne {β : Type} (l : List (Nat × β)) (t : Nat)
    (h : ∀ p ∈ l, p.1 ≠ t) : l.lookup t = none := by
  induction l with
  | nil => rfl
  | cons a rest ih =>
    obtain ⟨k, v⟩ := a
    have hk : (t == k) = false := by
      have hne := h (k, v) (by simp)
      simp only [beq_eq_false_iff_ne]
      intro hc
      exact hne (by simp [hc])
    show (match t == k with
      | true => some v
      | false => List.lookup t rest) = none
    rw [hk]
    exact ih (fun p hp => h p (by simp [hp]))

theorem seriesLoc_err (s : Ser ℝ) (labels : List Nat) (t : Nat)
    (ht : t ∈ labels) (hmiss : s.lookup t = none) :
    seriesLoc s labels = Except.error "KeyError: label not in index" := by
  induction labels with
  | nil => cases ht
  | cons a rest ih =>
    unfold seriesLoc
    rw [List.mapM_cons]
    rcases List.mem_cons.mp ht with rfl | htr
    · rw [hmiss]
      rfl
    · cases hla : s.lookup a with
      | none => rfl
      | some v =>
        have hrest := ih htr
        unfold seriesLoc at hrest
        rw [hrest]
        rfl

theorem exceptMapM_cons_err {α β : Type} (f : α → Except String β)
    (a : α) (l : List α) (e : String) (ha : f a = Except.error e) :
    (a :: l).mapM f = Except.error e := by
  rw [List.mapM_cons, ha]
  rfl

theorem ebind_ok {α β : Type} (a : α) (f : α → Except String β) :
    (Except.ok a : Except String α) >>= f = f a := rfl

theorem ebind_err {α β : Type} (e : String) (f : α → Except String β) :
    (Except.error e : Except String α) >>= f = Except.error e := rfl

/-- C9: when the forecast table holds a timestamp t absent from the return
series' index, `evaluate_forecasts` raises the label-lookup KeyError
(rather than dropping the unmatched timestamp) in both the
realized_windows-omitted branch (the `.loc` on squared returns) and the
realized_windows-given branch (the `.loc` on the realized-variance frame),
before any metrics row is produced; stated for a well-formed forecast table
with at least one column and a nonempty list of positive windows. -/
theorem C9_unmatched_timestamp_raises (fv : Evaluation.DataFrame ℝ) (rets : Ser ℝ)
    (ws : List ℤ) (ann : Bool) (ppy : ℝ) (t : Nat)
    (ht : t ∈ fv.idx)
    (hmiss : t ∉ rets.map (fun p => p.1))
    (hcols : fv.cols ≠ [])
    (hwf : ∀ c ∈ fv.cols, c.2.length = fv.idx.length)
    (hws : ws ≠ []) (hpos : ∀ x ∈ ws, 0 < x) :
    Evaluation.evaluate_forecasts Real.log Real.sqrt fv rets none ann ppy
      = Except.error "KeyError: label not in index" ∧
    Evaluation.evaluate_forecasts Real.log Real.sqrt fv rets (some ws) ann ppy
      = Except.error "KeyError: label not in index" := by
  obtain ⟨fidx, fcols⟩ := fv
  simp only [] at ht hwf hcols
  obtain ⟨c0, crest, rfl⟩ := List.exists_cons_of_ne_nil hcols
  obtain ⟨w0, wrest, rfl⟩ := List.exists_cons_of_ne_nil hws
  have hlookup : ∀ (g : Nat × Option ℝ → Option ℝ),
      (rets.map (fun p => (p.1, g p))).lookup t = none := by
    intro g
    apply lookup_none_of_fst_ne
    intro p hp
    obtain ⟨q, hq, rfl⟩ := List.mem_map.mp hp
    intro hc
    exact hmiss (List.mem_map.mpr ⟨q, hq, hc⟩)
  constructor
  · have hloc := seriesLoc_err (rets.map (fun p => (p.1, p.2.map (fun v => v ^ 2))))
      fidx t ht (hlookup (fun p => p.2.map (fun v => v ^ 2)))
    unfold Evaluation.evaluate_forecasts
    dsimp only []
    rw [hloc]
    rfl
  · have hvol := wrvol_ok rets (w0 :: wrest) ppy hpos
    have hvar : Evaluation.windowed_realized_variance Real.sqrt rets (w0 :: wrest) ppy
        = Except.ok (Evaluation.DataFrame.mk (rets.map (fun p => p.1))
            (((w0 :: wrest).map (fun w => (Evaluation.rvName w,
              (Evaluation.rollingSum w.toNat
                  (rets.map (fun p => p.2.map (fun v => v ^ 2)))).map (fun s =>
                s.bind (fun x => npSqrt Real.sqrt (ppy / (w : ℝ) * x)))))).map
                  (fun c => (c.1, c.2.map (fun v => v.map (fun x => x ^ 2)))))) := by
      unfold Evaluation.windowed_realized_variance
      rw [hvol]
      rfl
    have hvarpred : ∀ (s : ℝ), ((fidx.zip c0.2).map
        (fun p => (p.1, p.2.map (fun v => v * s)))).map (fun p => p.1) = fidx := by
      intro s
      rw [List.map_map]
      have hcmp : ((fun p : Nat × Option ℝ => p.1) ∘
          (fun p : Nat × Option ℝ => (p.1, p.2.map (fun v => v * s))))
          = fun p : Nat × Option ℝ => p.1 := rfl
      rw [hcmp]
      exact List.map_fst_zip fidx c0.2 (by rw [hwf c0 (by simp)])
    have hzlookup : ∀ (col : List (Option ℝ)),
        ((rets.map (fun p => p.1)).zip col).lookup t = none := by
      intro col
      apply lookup_none_of_fst_ne
      intro p hp
      intro hc2
      have hmem := (List.of_mem_zip hp).1
      exact hmiss (hc2 ▸ hmem)
    unfold Evaluation.evaluate_forecasts
    dsimp only []
    rw [hvar, ebind_ok]
    dsimp only []
    rw [exceptMapM_cons_err _ c0 crest "KeyError: label not in index" ?hcol,
      ebind_err]
    case hcol =>
      dsimp only []
      rw [exceptMapM_cons_err _ w0 wrest "KeyError: label not in index" ?hrow]
      case hrow =>
        have hlookcol : (((w0 :: wrest).map (fun w => (Evaluation.rvName w,
            (Evaluation.rollingSum w.toNat
                (rets.map (fun p => p.2.map (fun v => v ^ 2)))).map (fun s =>
              s.bind (fun x => npSqrt Real.sqrt (ppy / (w : ℝ) * x)))))).map
                (fun c => (c.1, c.2.map (fun v => v.map (fun x => x ^ 2))))).lookup
              (Evaluation.rvName w0)
            = some (((Evaluation.rollingSum w0.toNat
                (rets.map (fun p => p.2.map (fun v => v ^ 2)))).map (fun s =>
              s.bind (fun x => npSqrt Real.sqrt (ppy / (w0 : ℝ) * x)))).map
                (fun v => v.map (fun x => x ^ 2))) := by
          show (match Evaluation.rvName w0 == Evaluation.rvName w0 with
            | true => some _
            | false => _) = _
          rw [beq_self_eq_true]
        rw [hlookcol]
        dsimp only []
        rw [ebind_ok, hvarpred]
        rw [seriesLoc_err _ fidx t ht (hzlookup _), ebind_err]

/-- C9 witness: a one-column forecast table keyed by timestamp 5 scored
against a return series whose only timestamp is 0: both the
realized_windows-omitted call and the call with windows [2] end in the
label-lookup KeyError. -/
theorem C9_unmatched_timestamp_raises_witness :
    ((5 : Nat) ∈ (Evaluation.DataFrame.mk [5] [("m", [some (1 : ℝ)])]).idx ∧
      (5 : Nat) ∉ ([((0 : Nat), some (0 : ℝ))] : Ser ℝ).map (fun p => p.1) ∧
      (Evaluation.DataFrame.mk [5] [("m", [some (1 : ℝ)])]).cols ≠ [] ∧
      (∀ c ∈ (Evaluation.DataFrame.mk [5] [("m", [some (1 : ℝ)])]).cols,
        c.2.length = (Evaluation.DataFrame.mk [5] [("m", [some (1 : ℝ)])]).idx.length) ∧
      ([2] : List ℤ) ≠ [] ∧ (∀ x ∈ ([2] : List ℤ), 0 < x)) ∧
    (Evaluation.evaluate_forecasts Real.log Real.sqrt
        (Evaluation.DataFrame.mk [5] [("m", [some (1 : ℝ)])])
        ([((0 : Nat), some (0 : ℝ))] : Ser ℝ) none false 252
      = Except.error "KeyError: label not in index" ∧
    Evaluation.evaluate_forecasts Real.log Real.sqrt
        (Evaluation.DataFrame.mk [5] [("m", [some (1 : ℝ)])])
        ([((0 : Nat), some (0 : ℝ))] : Ser ℝ) (some ([2] : List ℤ)) false 252
      = Except.error "KeyError: label not in index") :=
  ⟨⟨by simp, by simp, by simp, by intro c hc; simp at hc; rw [hc]; rfl, by simp, by decide⟩,
    C9_unmatched_timestamp_raises _ _ [2] false 252 5 (by simp) (by simp) (by simp)
      (by intro c hc; simp at hc; rw [hc]; rfl) (by simp) (by decide)⟩

/-! ## C4: annualize_pred scaling -/

/-- Projection of an `evaluate_forecasts` result onto its MSE column. -/
def mseColumn {K : Type} (e : Except String (List (Evaluation.MetricRow K))) :
    Except String (List (Option K)) :=
  e.map (fun rows => rows.map (fun r => r.mse_var))

theorem exceptMapM_congr {α β : Type} (f g : α → Except String β) (l : List α)
    (h : ∀ x ∈ l, f x = g x) : l.mapM f = l.mapM g := by
  induction l with
  | nil => rfl
  | cons a t ih =>
    rw [List.mapM_cons, List.mapM_cons, h a (by simp),
      ih (fun x hx => h x (by simp [hx]))]

theorem exceptMapM_map {α γ β : Type} (g : α → γ) (f : γ → Except String β)
    (l : List α) : (l.map g).mapM f = l.mapM (fun x => f (g x)) := by
  induction l with
  | nil => rfl
  | cons a t ih =>
    rw [List.map_cons, List.mapM_cons, List.mapM_cons, ih]

/-- C4 counterexample: with `realized_windows` omitted and
`annualize_pred = true`, `evaluate_forecasts` produces exactly the same
result as with `annualize_pred = false` — the flag is ignored in that
branch — and in particular the MSE for the unit forecast against a zero
return is 1, not the 63504 = 252² that scoring the 252-scaled forecast
yields; so forecasts are NOT multiplied by periods_per_year in the omitted
branch. -/
theorem C4_annualize_counterexample :
    Evaluation.evaluate_forecasts Real.log Real.sqrt
        (Evaluation.DataFrame.mk [0] [("m", [some (1 : ℝ)])])
        ([((0 : Nat), some (0 : ℝ))] : Ser ℝ) none true 252
      = Evaluation.evaluate_forecasts Real.log Real.sqrt
        (Evaluation.DataFrame.mk [0] [("m", [some (1 : ℝ)])])
        ([((0 : Nat), some (0 : ℝ))] : Ser ℝ) none false 252 ∧
    mseColumn (Evaluation.evaluate_forecasts Real.log Real.sqrt
        (Evaluation.DataFrame.mk [0] [("m", [some (1 : ℝ)])])
        ([((0 : Nat), some (0 : ℝ))] : Ser ℝ) none true 252)
      = Except.ok [some 1] ∧
    mseColumn (Evaluation.evaluate_forecasts Real.log Real.sqrt
        (Evaluation.DataFrame.mk [0] [("m", [some (252 : ℝ)])])
        ([((0 : Nat), some (0 : ℝ))] : Ser ℝ) none false 252)
      = Except.ok [some 63504] ∧
    some (1 : ℝ) ≠ some (63504 : ℝ) := by
  have hmse1 : Evaluation.mse_variance [((0 : Nat), some (1 : ℝ))]
      [((0 : Nat), some ((0 : ℝ) ^ 2))] = some 1 := by
    simp only [Evaluation.mse_variance, innerJoin, meanSkipna, mean, omap2,
      List.lookup, List.filterMap, List.map]
    norm_num
  have hmse252 : Evaluation.mse_variance [((0 : Nat), some (252 : ℝ))]
      [((0 : Nat), some ((0 : ℝ) ^ 2))] = some 63504 := by
    simp only [Evaluation.mse_variance, innerJoin, meanSkipna, mean, omap2,
      List.lookup, List.filterMap, List.map]
    norm_num
  refine ⟨rfl, ?_, ?_, by norm_num⟩
  · calc mseColumn (Evaluation.evaluate_forecasts Real.log Real.sqrt
        (Evaluation.DataFrame.mk [0] [("m", [some (1 : ℝ)])])
        ([((0 : Nat), some (0 : ℝ))] : Ser ℝ) none true 252)
        = Except.ok [Evaluation.mse_variance [((0 : Nat), some (1 : ℝ))]
            [((0 : Nat), some ((0 : ℝ) ^ 2))]] := rfl
      _ = Except.ok [some 1] := by rw [hmse1]
  · calc mseColumn (Evaluation.evaluate_forecasts Real.log Real.sqrt
        (Evaluation.DataFrame.mk [0] [("m", [some (252 : ℝ)])])
        ([((0 : Nat), some (0 : ℝ))] : Ser ℝ) none false 252)
        = Except.ok [Evaluation.mse_variance [((0 : Nat), some (252 : ℝ))]
            [((0 : Nat), some ((0 : ℝ) ^ 2))]] := rfl
      _ = Except.ok [some 63504] := by rw [hmse252]

/-- C4 (amended): `annualize_pred` multiplies every forecast variance by
`periods_per_year` before the metrics are computed only when
`realized_windows` is provided — scoring the annualized run equals scoring
the pre-scaled forecast table with the flag off; when `realized_windows` is
omitted the flag has no effect at all. -/
theorem C4_annualize_amended (fv : Evaluation.DataFrame ℝ) (rets : Ser ℝ)
    (ws : List ℤ) (ppy : ℝ) :
    Evaluation.evaluate_forecasts Real.log Real.sqrt fv rets none true ppy
      = Evaluation.evaluate_forecasts Real.log Real.sqrt fv rets none false ppy ∧
    Evaluation.evaluate_forecasts Real.log Real.sqrt fv rets (some ws) true ppy
      = Evaluation.evaluate_forecasts Real.log Real.sqrt
          (Evaluation.DataFrame.mk fv.idx (fv.cols.map (fun c =>
            (c.1, c.2.map (fun v => v.map (fun x => x * ppy))))))
          rets (some ws) false ppy := by
  constructor
  · rfl
  · unfold Evaluation.evaluate_forecasts
    dsimp only []
    congr 1
    funext rdf
    congr 1
    rw [exceptMapM_map]
    apply exceptMapM_congr
    intro c hc
    dsimp only []
    simp only [eq_self_iff_true, Bool.false_eq_true, if_true, if_false]
    have hvp : (fv.idx.zip c.2).map (fun p => (p.1, p.2.map (fun v => v * ppy)))
        = (fv.idx.zip (c.2.map (fun v => v.map (fun x => x * ppy)))).map
            (fun p => (p.1, p.2.map (fun v => v * 1))) := by
      rw [List.zip_map_right, List.map_map]
      apply List.map_congr_left
      intro p _
      obtain ⟨a, b⟩ := p
      cases b with
      | none => rfl
      | some x =>
        simp only [Function.comp_apply, Prod.map_apply, id_eq, Option.map_some',
          mul_one]
    rw [hvp]

end VolModel
